import Mathlib

-- Shallow embedding of the Playdate Zed extension (src/src/lib.rs).
-- Host-provided effects (worktree shell environment, which-lookups, the
-- GitHub release query, file downloads, process output, the current
-- directory) are passed in as explicit environment records; the extension's
-- mutable cache fields become explicit state passing; fallible Rust
-- functions return Except.  Observable side effects of the language-server
-- resolver (status updates, the release-index query, the download
-- primitive) are recorded in an event trace.

inductive Os where
  | mac
  | linux
  | windows
  deriving DecidableEq, Repr

inductive Architecture where
  | aarch64
  | x8664
  | x86
  deriving DecidableEq, Repr

-- Rust str::replace scans left to right and replaces each non-overlapping
-- occurrence of the pattern.  The fuel argument bounds the recursion by the
-- input length; the sole caller below uses the fixed non-empty pattern
-- "$ZED_WORKTREE_ROOT", for which the semantics agree with Rust.
def replaceFuel (pat repl : List Char) : Nat → List Char → List Char
  | 0, s => s
  | _ + 1, [] => []
  | fuel + 1, c :: rest =>
    if pat <+: (c :: rest) then
      repl ++ replaceFuel pat repl fuel ((c :: rest).drop pat.length)
    else
      c :: replaceFuel pat repl fuel rest

def listReplace (pat repl s : List Char) : List Char :=
  replaceFuel pat repl s.length s

def rust_replace (s pat repl : String) : String :=
  String.mk (listReplace pat.data repl.data s.data)

-- lib.rs lines 46-70: the for-loop over shell_env looking for a non-empty
-- PLAYDATE_SDK_PATH entry.
def lookup_playdate_sdk_env : List (String × String) → Option String
  | [] => none
  | (k, v) :: rest =>
    if k = "PLAYDATE_SDK_PATH" ∧ v ≠ "" then some v else lookup_playdate_sdk_env rest

-- lib.rs lines 58-62: first entry whose key is HOME or USERPROFILE, or "".
def home_value (env_vars : List (String × String)) : String :=
  ((env_vars.find? (fun kv => kv.1 == "HOME" || kv.1 == "USERPROFILE")).map Prod.snd).getD ""

def detect_sdk_path (os : Os) (env_vars : List (String × String)) : Except String String :=
  match lookup_playdate_sdk_env env_vars with
  | some value => Except.ok value
  | none =>
    let home := home_value env_vars
    match os with
    | Os.mac => Except.ok (home ++ "/Developer/PlaydateSDK")
    | Os.linux => Except.ok (home ++ "/.local/share/playdate-sdk")
    | Os.windows => Except.ok (home ++ "\\Documents\\PlaydateSDK")

def get_simulator_path (os : Os) (env_vars : List (String × String)) : Except String String :=
  match detect_sdk_path os env_vars with
  | Except.error e => Except.error e
  | Except.ok sdk_path =>
    match os with
    | Os.mac =>
      Except.ok (sdk_path ++ "/bin/Playdate Simulator.app/Contents/MacOS/Playdate Simulator")
    | Os.linux => Except.ok (sdk_path ++ "/bin/PlaydateSimulator")
    | Os.windows => Except.ok (sdk_path ++ "\\bin\\PlaydateSimulator.exe")

inductive RequestKind where
  | launch
  | attach
  deriving DecidableEq, Repr

structure PlaydateDebugConfig where
  request : String
  game_path : Option String
  source_path : Option String
  sdk_path : Option String
  deriving DecidableEq, Repr

def default_game_path : Option String := some "$ZED_WORKTREE_ROOT/builds/Game.pdx"

def default_source_path : Option String := some "$ZED_WORKTREE_ROOT/source"

def get_request_type (config : PlaydateDebugConfig) : Except String RequestKind :=
  match config.request with
  | "attach" => Except.ok RequestKind.attach
  | "launch" => Except.ok RequestKind.launch
  | other => Except.error ("Invalid request type '" ++ other ++ "'. Expected 'launch' or 'attach'")

def os_asset_str : Os → String
  | Os.mac => "darwin"
  | Os.linux => "linux"
  | Os.windows => "win32"

def archive_ext : Os → String
  | Os.mac => "tar.gz"
  | Os.linux => "tar.gz"
  | Os.windows => "zip"

def asset_name_str (platform : Os) (arch_str version : String) : String :=
  "lua-language-server-" ++ version ++
    ("-" ++ os_asset_str platform ++ "-" ++ arch_str ++ "." ++ archive_ext platform)

def asset_name_for (platform : Os) (arch : Architecture) (version : String) :
    Except String String :=
  match arch with
  | Architecture.aarch64 => Except.ok (asset_name_str platform "arm64" version)
  | Architecture.x8664 => Except.ok (asset_name_str platform "x64" version)
  | Architecture.x86 => Except.error "unsupported platform x86"

structure GithubReleaseAsset where
  name : String
  download_url : String
  deriving DecidableEq, Repr

structure GithubRelease where
  version : String
  assets : List GithubReleaseAsset
  deriving DecidableEq, Repr

inductive InstallationStatus where
  | checkingForUpdate
  | downloading
  deriving DecidableEq, Repr

inductive LspEvent where
  | setStatus (status : InstallationStatus)
  | queryRelease
  | download (url : String)
  deriving DecidableEq, Repr

structure ExtensionState where
  cached_binary_path : Option String := none
  cached_luacats_path : Option String := none
  deriving DecidableEq, Repr

structure LspEnv where
  which_lua : Option String
  platform : Os
  arch : Architecture
  release : Except String GithubRelease
  download : Except String Unit
  deriving Repr

def exe_suffix : Os → String
  | Os.mac => ""
  | Os.linux => ""
  | Os.windows => ".exe"

-- lib.rs lines 174-177: the status updates and the release-index query
-- emitted before the architecture is examined.
def lsp_check_events : List LspEvent :=
  [LspEvent.setStatus InstallationStatus.checkingForUpdate, LspEvent.queryRelease]

-- lib.rs lines 212-219: version_dir plus the expected executable inside it.
def lsp_binary_path (platform : Os) (version : String) : String :=
  "lua-language-server-" ++ version ++ "/bin/lua-language-server" ++ exe_suffix platform

-- lib.rs lines 161-238.
def language_server_binary_path (env : LspEnv) (st : ExtensionState) :
    Except String String × ExtensionState × List LspEvent :=
  match env.which_lua with
  | some path => (Except.ok path, st, [])
  | none =>
    match st.cached_binary_path with
    | some path => (Except.ok path, st, [])
    | none =>
      match env.release with
      | Except.error e => (Except.error e, st, lsp_check_events)
      | Except.ok release =>
        match asset_name_for env.platform env.arch release.version with
        | Except.error e => (Except.error e, st, lsp_check_events)
        | Except.ok asset_name =>
          match release.assets.find? (fun asset => asset.name == asset_name) with
          | none =>
            (Except.error ("no asset found matching \"" ++ asset_name ++ "\""), st,
              lsp_check_events)
          | some asset =>
            match env.download with
            | Except.error e =>
              (Except.error ("failed to download file: " ++ e), st,
                lsp_check_events ++ [LspEvent.setStatus InstallationStatus.downloading,
                  LspEvent.download asset.download_url])
            | Except.ok _ =>
              (Except.ok (lsp_binary_path env.platform release.version),
                { st with cached_binary_path := some (lsp_binary_path env.platform release.version) },
                lsp_check_events ++ [LspEvent.setStatus InstallationStatus.downloading,
                  LspEvent.download asset.download_url])

structure WsEnv where
  os : Os
  env_vars : List (String × String)
  which_pdc : Option String
  pdc_version_output : Except String String
  luacats_download : Except String Unit
  current_dir : Except String String
  deriving Repr

-- lib.rs lines 103-159.  PathBuf::join is modelled with the "/" separator
-- used by the extension's WASI host.
def playdate_luacats_path (env : WsEnv) (st : ExtensionState) :
    Except String String × ExtensionState :=
  match st.cached_luacats_path with
  | some path => (Except.ok path, st)
  | none =>
    match env.which_pdc with
    | none => (Except.error "pdc command not found in PATH", st)
    | some _ =>
      match env.pdc_version_output with
      | Except.error e => (Except.error ("failed to run pdc --version: " ++ e), st)
      | Except.ok stdout =>
        let sdk_version := stdout.trim
        let luacats_tag := "v" ++ sdk_version ++ "-luacats1"
        let version_dir := "playdate-luacats-" ++ sdk_version ++ "-luacats1"
        match env.luacats_download with
        | Except.error e =>
          (Except.error ("failed to download playdate-luacats tag " ++ luacats_tag ++ ": " ++ e),
            st)
        | Except.ok _ =>
          match env.current_dir with
          | Except.error e => (Except.error ("Failed to get extension directory: " ++ e), st)
          | Except.ok extension_dir =>
            let library_path := extension_dir ++ "/" ++ version_dir ++ "/library"
            (Except.ok library_path, { st with cached_luacats_path := some library_path })

-- Projection of the JSON payload built at lib.rs lines 373-396 onto the
-- fields the spec talks about.
structure WorkspaceSettings where
  runtime_version : String
  diagnostics_globals : List String
  diagnostics_disable : List String
  library : List String
  check_third_party : Bool
  completion_call_snippet : String
  deriving DecidableEq, Repr

-- lib.rs lines 361-371: SDK CoreLibs entry (when detected) followed by the
-- luacats type-definition path.
def build_library_paths (sdk_path : Option String) (luacats_path : String) : List String :=
  (match sdk_path with
    | some path => [path ++ "/CoreLibs"]
    | none => []) ++ [luacats_path]

-- lib.rs lines 348-397.
def language_server_workspace_configuration (language_server_id : String) (env : WsEnv)
    (st : ExtensionState) : Except String (Option WorkspaceSettings) × ExtensionState :=
  if language_server_id ≠ "playdate-lua-language-server" then (Except.ok none, st)
  else
    let sdk_path := (detect_sdk_path env.os env.env_vars).toOption
    match playdate_luacats_path env st with
    | (Except.error e, st') => (Except.error e, st')
    | (Except.ok luacats, st') =>
      (Except.ok (some
        { runtime_version := "Lua 5.4"
          diagnostics_globals := ["playdate", "import"]
          diagnostics_disable := ["duplicate-set-field"]
          library := build_library_paths sdk_path luacats
          check_third_party := false
          completion_call_snippet := "Replace" }), st')

-- Structural form of the debug-configuration JSON text: each optional field
-- is present (some) or absent (none); serde's derive fills the documented
-- defaults for absent fields and rejects a missing request field.
structure DebugConfigJson where
  request : Option String
  gamePath : Option String
  sourcePath : Option String
  sdkPath : Option String
  deriving DecidableEq, Repr

def parse_debug_config (json : DebugConfigJson) : Except String PlaydateDebugConfig :=
  match json.request with
  | none => Except.error "Failed to parse debug configuration: missing field `request`"
  | some request =>
    Except.ok
      { request := request
        game_path := (json.gamePath.map some).getD default_game_path
        source_path := (json.sourcePath.map some).getD default_source_path
        sdk_path := json.sdkPath }

structure TcpArgumentsIn where
  host : Option Nat
  port : Option Nat
  timeout : Option Nat
  deriving DecidableEq, Repr

structure DebugTaskDefinition where
  config : DebugConfigJson
  tcp_connection : Option TcpArgumentsIn
  deriving DecidableEq, Repr

-- lib.rs lines 434-443.
def resolve_connection : Option TcpArgumentsIn → Nat × Nat × Nat
  | some tcp => (tcp.host.getD 0x7f000001, tcp.port.getD 55934, tcp.timeout.getD 5000)
  | none => (0x7f000001, 55934, 5000)

structure DebugAdapterBinary where
  command : Option String
  arguments : List String
  envs : List (String × String)
  cwd : Option String
  connection_host : Nat
  connection_port : Nat
  connection_timeout : Nat
  configuration : PlaydateDebugConfig
  request : RequestKind
  deriving DecidableEq, Repr

def substitute_worktree_root (path root_path : String) : String :=
  rust_replace path "$ZED_WORKTREE_ROOT" root_path

-- lib.rs lines 399-487.  The serialized final configuration is kept as the
-- resolved PlaydateDebugConfig record.
def get_dap_binary (adapter_name : String) (task : DebugTaskDefinition) (os : Os)
    (env_vars : List (String × String)) (root_path : String) :
    Except String DebugAdapterBinary :=
  if adapter_name ≠ "Playdate" then
    Except.error ("Unsupported adapter name: " ++ adapter_name)
  else
    match parse_debug_config task.config with
    | Except.error e => Except.error e
    | Except.ok parsed =>
      let sdk_resolved : Except String (Option String) :=
        match parsed.sdk_path with
        | some p => Except.ok (some p)
        | none => (detect_sdk_path os env_vars).map some
      match sdk_resolved with
      | Except.error e => Except.error e
      | Except.ok sdk_path =>
        let debug_config : PlaydateDebugConfig :=
          { parsed with
            sdk_path := sdk_path
            source_path := parsed.source_path.map (fun p => substitute_worktree_root p root_path)
            game_path := parsed.game_path.map (fun p => substitute_worktree_root p root_path) }
        match get_request_type debug_config with
        | Except.error e => Except.error e
        | Except.ok request =>
          let conn := resolve_connection task.tcp_connection
          match request with
          | RequestKind.launch =>
            match get_simulator_path os env_vars with
            | Except.error e => Except.error e
            | Except.ok simulator_path =>
              match debug_config.game_path with
              | none => Except.error "No game_path specified in launch configuration"
              | some game_path =>
                Except.ok
                  { command := some simulator_path
                    arguments := [game_path]
                    envs := []
                    cwd := none
                    connection_host := conn.1
                    connection_port := conn.2.1
                    connection_timeout := conn.2.2
                    configuration := debug_config
                    request := RequestKind.launch }
          | RequestKind.attach =>
            Except.ok
              { command := none
                arguments := []
                envs := []
                cwd := none
                connection_host := conn.1
                connection_port := conn.2.1
                connection_timeout := conn.2.2
                configuration := debug_config
                request := RequestKind.attach }

-- Statement-side helpers (used only to phrase the verified properties).

def intercalateL (sep : List Char) : List (List Char) → List Char
  | [] => []
  | [part] => part
  | part :: part2 :: parts => part ++ sep ++ intercalateL sep (part2 :: parts)

def joinWith (sep : String) : List String → String
  | [] => ""
  | [part] => part
  | part :: part2 :: parts => part ++ sep ++ joinWith sep (part2 :: parts)

-- Concrete runs used in witnesses and counterexamples.

-- An x86 machine, the tool neither on the executable search path nor
-- cached, the release-index query succeeding.
def c1_env : LspEnv :=
  { which_lua := none
    platform := Os.linux
    arch := Architecture.x86
    release := Except.ok { version := "3.9.3", assets := [] }
    download := Except.ok () }

-- A machine with the tool already on the executable search path.
def c2_env_path : LspEnv :=
  { which_lua := some "/usr/bin/lua-language-server"
    platform := Os.linux
    arch := Architecture.x8664
    release := Except.ok { version := "3.9.3", assets := [] }
    download := Except.ok () }

-- A machine where resolution has to download: the release carries the
-- matching asset and the download succeeds.
def c2_env_download : LspEnv :=
  { which_lua := none
    platform := Os.linux
    arch := Architecture.x8664
    release := Except.ok
      { version := "3.9.3",
        assets := [{ name := "lua-language-server-3.9.3-linux-x64.tar.gz",
                     download_url := "https://example.com/lls.tar.gz" }] }
    download := Except.ok () }

-- A workspace whose environment pins the SDK at /sdk and whose
-- type-definition resolution succeeds.
def c9_env : WsEnv :=
  { os := Os.linux
    env_vars := [("PLAYDATE_SDK_PATH", "/sdk")]
    which_pdc := some "/usr/bin/pdc"
    pdc_version_output := Except.ok "2.5.0"
    luacats_download := Except.ok ()
    current_dir := Except.ok "/work" }

-- A workspace where the pdc executable is missing.
def c9_env_nopdc : WsEnv :=
  { os := Os.mac
    env_vars := []
    which_pdc := none
    pdc_version_output := Except.error "no pdc"
    luacats_download := Except.ok ()
    current_dir := Except.ok "/work" }

-- Helper lemmas.

theorem lookup_playdate_sdk_env_ne_empty :
    ∀ (env_vars : List (String × String)) (v : String),
      lookup_playdate_sdk_env env_vars = some v → v ≠ "" := by
  intro env_vars
  induction env_vars with
  | nil => intro v h; simp [lookup_playdate_sdk_env] at h
  | cons kv rest ih =>
    intro v h
    obtain ⟨k, w⟩ := kv
    by_cases hc : k = "PLAYDATE_SDK_PATH" ∧ w ≠ ""
    · simp only [lookup_playdate_sdk_env, if_pos hc] at h
      cases h; exact hc.2
    · simp only [lookup_playdate_sdk_env, if_neg hc] at h
      exact ih v h

theorem str_append_ne_empty (a b : String) (hb : b ≠ "") : a ++ b ≠ "" := by
  intro h
  have hdata : a.data ++ b.data = [] := by
    have h2 := congrArg String.data h
    simpa [String.data_append] using h2
  exact hb (String.ext (List.append_eq_nil.mp hdata).2)

theorem detect_sdk_path_ok (os : Os) (env_vars : List (String × String)) :
    ∃ p, detect_sdk_path os env_vars = Except.ok p ∧ p ≠ "" := by
  unfold detect_sdk_path
  cases hl : lookup_playdate_sdk_env env_vars with
  | some v => exact ⟨v, rfl, lookup_playdate_sdk_env_ne_empty env_vars v hl⟩
  | none =>
    cases os with
    | mac => exact ⟨_, rfl, str_append_ne_empty _ _ (by decide)⟩
    | linux => exact ⟨_, rfl, str_append_ne_empty _ _ (by decide)⟩
    | windows => exact ⟨_, rfl, str_append_ne_empty _ _ (by decide)⟩

theorem lookup_eq_filter_head :
    ∀ env_vars : List (String × String),
      lookup_playdate_sdk_env env_vars =
        ((env_vars.filter (fun kv => kv.1 == "PLAYDATE_SDK_PATH" && kv.2 != "")).head?).map
          Prod.snd := by
  intro env_vars
  induction env_vars with
  | nil => rfl
  | cons kv rest ih =>
    obtain ⟨k, w⟩ := kv
    by_cases hc : k = "PLAYDATE_SDK_PATH" ∧ w ≠ ""
    · have hb : (k == "PLAYDATE_SDK_PATH" && w != "") = true := by
        simp [hc.1, hc.2]
      simp [lookup_playdate_sdk_env, if_pos hc, List.filter_cons, hb]
    · have hb : (k == "PLAYDATE_SDK_PATH" && w != "") = false := by
        rcases not_and_or.mp hc with h1 | h1
        · simp [h1]
        · simp only [not_not] at h1
          simp [h1]
      simp [lookup_playdate_sdk_env, if_neg hc, List.filter_cons, hb, ih]

theorem find?_eq_filter_head? {α : Type} (p : α → Bool) :
    ∀ l : List α, l.find? p = (l.filter p).head? := by
  intro l
  induction l with
  | nil => rfl
  | cons x xs ih =>
    cases hp : p x with
    | true => rw [List.find?_cons_of_pos _ hp, List.filter_cons_of_pos hp, List.head?_cons]
    | false =>
      rw [List.find?_cons_of_neg _ (by simp [hp]), List.filter_cons_of_neg (by simp [hp]), ih]

/-- C10: detect_sdk_path never returns an error: for every OS and worktree
environment (including one with no PLAYDATE_SDK_PATH, HOME, or USERPROFILE
entry, where the home component defaults to the empty string) it returns Ok
with some path, so the error-propagation branch in get_dap_binary and the
tolerated-failure branch in language_server_workspace_configuration can
never be taken. -/
theorem c10_detect_sdk_path_total :
    (∀ (os : Os) (env_vars : List (String × String)),
        ∃ p, detect_sdk_path os env_vars = Except.ok p)
      ∧ detect_sdk_path Os.mac [] = Except.ok "/Developer/PlaydateSDK"
      ∧ detect_sdk_path Os.linux [] = Except.ok "/.local/share/playdate-sdk"
      ∧ detect_sdk_path Os.windows [] = Except.ok "\\Documents\\PlaydateSDK"
      ∧ (∀ (os : Os) (env_vars : List (String × String)),
        (detect_sdk_path os env_vars).toOption.isSome = true) := by
  refine ⟨?_, rfl, rfl, rfl, ?_⟩
  · intro os env_vars
    obtain ⟨p, hp, -⟩ := detect_sdk_path_ok os env_vars
    exact ⟨p, hp⟩
  · intro os env_vars
    obtain ⟨p, hp, -⟩ := detect_sdk_path_ok os env_vars
    simp [hp, Except.toOption]

/-- C3: get_request_type maps the exact string "launch" to the Launch kind
and the exact string "attach" to the Attach kind, independently of the other
configuration fields, and every other request string is rejected with an
error message that contains the rejected value verbatim (no trimming, no
case folding). -/
theorem c3_request_classification :
    (∀ g s k, get_request_type ⟨"launch", g, s, k⟩ = Except.ok RequestKind.launch)
      ∧ (∀ g s k, get_request_type ⟨"attach", g, s, k⟩ = Except.ok RequestKind.attach)
      ∧ (∀ config : PlaydateDebugConfig,
        config.request ≠ "launch" → config.request ≠ "attach" →
        ∃ pre post, get_request_type config = Except.error (pre ++ config.request ++ post)) := by
  refine ⟨fun g s k => rfl, fun g s k => rfl, ?_⟩
  intro config hl ha
  refine ⟨"Invalid request type '", "'. Expected 'launch' or 'attach'", ?_⟩
  obtain ⟨req, g, s, k⟩ := config
  unfold get_request_type
  split
  · rename_i heq
    exact absurd heq ha
  · rename_i heq
    exact absurd heq hl
  · rfl

/-- C3 witness: the mixed-case string "Launch" and the empty string are both
rejected, with the rejected value embedded in the error message. -/
theorem c3_request_classification_witness :
    (∃ pre post, get_request_type ⟨"Launch", none, none, none⟩
        = Except.error (pre ++ "Launch" ++ post))
      ∧ (∃ pre post, get_request_type ⟨"", none, none, none⟩
        = Except.error (pre ++ "" ++ post)) :=
  ⟨c3_request_classification.2.2 ⟨"Launch", none, none, none⟩ (by decide) (by decide),
    c3_request_classification.2.2 ⟨"", none, none, none⟩ (by decide) (by decide)⟩

/-- C8: for every release version and every supported (OS, architecture)
pair the expected asset filename follows the fixed table
lua-language-server-{version}-{os}-{arch}.{extension} with os darwin /
linux / win32, arch arm64 / x64, and extension tar.gz (Mac, Linux) or zip
(Windows). -/
theorem c8_asset_name_table :
    ∀ version : String,
      asset_name_for Os.mac Architecture.aarch64 version =
          Except.ok ("lua-language-server-" ++ version ++ "-darwin-arm64.tar.gz")
        ∧ asset_name_for Os.mac Architecture.x8664 version =
          Except.ok ("lua-language-server-" ++ version ++ "-darwin-x64.tar.gz")
        ∧ asset_name_for Os.linux Architecture.aarch64 version =
          Except.ok ("lua-language-server-" ++ version ++ "-linux-arm64.tar.gz")
        ∧ asset_name_for Os.linux Architecture.x8664 version =
          Except.ok ("lua-language-server-" ++ version ++ "-linux-x64.tar.gz")
        ∧ asset_name_for Os.windows Architecture.aarch64 version =
          Except.ok ("lua-language-server-" ++ version ++ "-win32-arm64.zip")
        ∧ asset_name_for Os.windows Architecture.x8664 version =
          Except.ok ("lua-language-server-" ++ version ++ "-win32-x64.zip") := by
  intro version
  refine ⟨?_, ?_, ?_, ?_, ?_, ?_⟩ <;>
    exact congrArg (fun t => Except.ok ("lua-language-server-" ++ version ++ t)) (by decide)

/-- C4 counterexample: on Windows with both HOME and USERPROFILE present
(HOME first), detect_sdk_path builds the path from HOME, not from
USERPROFILE as the claim requires for Windows. -/
theorem c4_counterexample :
    detect_sdk_path Os.windows [("HOME", "/home/u"), ("USERPROFILE", "C:\\Users\\u")]
        = Except.ok "/home/u\\Documents\\PlaydateSDK"
      ∧ "/home/u\\Documents\\PlaydateSDK" ≠ "C:\\Users\\u" ++ "\\Documents\\PlaydateSDK" := by
  constructor
  · rfl
  · decide

/-- C4 (amended): detect_sdk_path returns the value of the first
PLAYDATE_SDK_PATH entry whose value is non-empty; otherwise it returns the
home value — the value of the first environment entry whose key is HOME or
USERPROFILE, regardless of the OS, defaulting to the empty string —
concatenated with the fixed per-OS suffix, independent of the filesystem. -/
theorem c4_detect_sdk_path_resolution :
    ∀ (os : Os) (env_vars : List (String × String)),
      detect_sdk_path os env_vars =
        match ((env_vars.filter
            (fun kv => kv.1 == "PLAYDATE_SDK_PATH" && kv.2 != "")).head?).map Prod.snd with
        | some value => Except.ok value
        | none =>
          let home := (((env_vars.filter
              (fun kv => kv.1 == "HOME" || kv.1 == "USERPROFILE")).head?).map Prod.snd).getD ""
          match os with
          | Os.mac => Except.ok (home ++ "/Developer/PlaydateSDK")
          | Os.linux => Except.ok (home ++ "/.local/share/playdate-sdk")
          | Os.windows => Except.ok (home ++ "\\Documents\\PlaydateSDK") := by
  intro os env_vars
  unfold detect_sdk_path home_value
  rw [lookup_eq_filter_head, find?_eq_filter_head?]


/-- C1 counterexample: on an x86 platform with the tool neither on the
search path nor cached, the run does return the unsupported-platform error,
but the release-index query event IS in its trace — the claim that the
query is never invoked fails at this input. -/
theorem c1_counterexample :
    (language_server_binary_path c1_env {}).1 = Except.error "unsupported platform x86"
      ∧ LspEvent.queryRelease ∈ (language_server_binary_path c1_env {}).2.2 := by
  constructor
  · rfl
  · show LspEvent.queryRelease ∈
      [LspEvent.setStatus InstallationStatus.checkingForUpdate, LspEvent.queryRelease]
    decide

/-- C1 (amended): on an x86 platform where the tool is neither on the
executable search path nor cached and the release-index query succeeds,
language_server_binary_path returns the unsupported-platform error before
the download primitive is ever invoked and without writing the cache; the
release-index query itself, however, is invoked (it precedes the
architecture check). -/
theorem c1_unsupported_arch :
    ∀ (env : LspEnv) (st : ExtensionState) (release : GithubRelease),
      env.which_lua = none → st.cached_binary_path = none →
      env.arch = Architecture.x86 → env.release = Except.ok release →
      (language_server_binary_path env st).1 = Except.error "unsupported platform x86"
        ∧ (language_server_binary_path env st).2.1 = st
        ∧ (∀ url, LspEvent.download url ∉ (language_server_binary_path env st).2.2)
        ∧ LspEvent.queryRelease ∈ (language_server_binary_path env st).2.2 := by
  intro env st release hw hc harch hrel
  have hres : language_server_binary_path env st
      = (Except.error "unsupported platform x86", st, lsp_check_events) := by
    unfold language_server_binary_path
    rw [hw, hc, hrel, harch]
    rfl
  rw [hres]
  refine ⟨rfl, rfl, ?_, ?_⟩
  · intro url
    simp [lsp_check_events]
  · simp [lsp_check_events]

/-- C1 witness: the amended statement at the concrete x86 run. -/
theorem c1_unsupported_arch_witness :
    c1_env.which_lua = none ∧ ({} : ExtensionState).cached_binary_path = none
      ∧ c1_env.arch = Architecture.x86
      ∧ c1_env.release = Except.ok { version := "3.9.3", assets := [] }
      ∧ (language_server_binary_path c1_env {}).1 = Except.error "unsupported platform x86"
      ∧ (language_server_binary_path c1_env {}).2.1 = ({} : ExtensionState)
      ∧ LspEvent.download "https://example.com/a.tar.gz"
          ∉ (language_server_binary_path c1_env {}).2.2
      ∧ LspEvent.queryRelease ∈ (language_server_binary_path c1_env {}).2.2 := by
  have h := c1_unsupported_arch c1_env {} { version := "3.9.3", assets := [] } rfl rfl rfl rfl
  exact ⟨rfl, rfl, rfl, rfl, h.1, h.2.1, h.2.2.1 _, h.2.2.2⟩

/-- C2: resolving the language-server tool twice in one process yields the
identical path with no second download: a search-path hit is returned
immediately with no cache write and no events at all, and after any
successful resolution a repeated call returns the same path, leaves the
state unchanged, and emits no release-index query and no download event
(its trace is empty). -/
theorem c2_resolution_cached :
    (∀ (env : LspEnv) (st : ExtensionState) (path : String),
        env.which_lua = some path →
        language_server_binary_path env st = (Except.ok path, st, []))
      ∧ (∀ (env : LspEnv) (st st' : ExtensionState) (path : String) (events : List LspEvent),
        language_server_binary_path env st = (Except.ok path, st', events) →
        language_server_binary_path env st' = (Except.ok path, st', [])) := by
  constructor
  · intro env st path hw
    unfold language_server_binary_path
    rw [hw]
  · intro env st st' path events h
    unfold language_server_binary_path at h ⊢
    split at h
    case _ q heq =>
      simp only [Prod.mk.injEq, Except.ok.injEq] at h
      obtain ⟨h1, h2, -⟩ := h
      subst h2
      rw [h1]
    case _ heq =>
      split at h
      case _ c heq2 =>
        simp only [Prod.mk.injEq, Except.ok.injEq] at h
        obtain ⟨h1, h2, -⟩ := h
        subst h2
        rw [heq2, h1]
      case _ heq2 =>
        split at h
        case _ e heq3 => simp at h
        case _ release heq3 =>
          split at h
          case _ e heq4 => simp at h
          case _ asset_name heq4 =>
            split at h
            case _ heq5 => simp at h
            case _ asset heq5 =>
              split at h
              case _ e heq6 => simp at h
              case _ u heq6 =>
                simp only [Prod.mk.injEq, Except.ok.injEq] at h
                obtain ⟨h1, h2, -⟩ := h
                subst h2
                rw [← h1]

/-- C2 witness: a search-path hit is returned with no events, and a
download-based resolution followed by a second call returns the identical
cached path with an empty second trace. -/
theorem c2_resolution_cached_witness :
    c2_env_path.which_lua = some "/usr/bin/lua-language-server"
      ∧ language_server_binary_path c2_env_path {}
        = (Except.ok "/usr/bin/lua-language-server", {}, [])
      ∧ language_server_binary_path c2_env_download {}
        = (Except.ok "lua-language-server-3.9.3/bin/lua-language-server",
          { cached_binary_path := some "lua-language-server-3.9.3/bin/lua-language-server" },
          [LspEvent.setStatus InstallationStatus.checkingForUpdate, LspEvent.queryRelease,
            LspEvent.setStatus InstallationStatus.downloading,
            LspEvent.download "https://example.com/lls.tar.gz"])
      ∧ language_server_binary_path c2_env_download
          { cached_binary_path := some "lua-language-server-3.9.3/bin/lua-language-server" }
        = (Except.ok "lua-language-server-3.9.3/bin/lua-language-server",
          { cached_binary_path := some "lua-language-server-3.9.3/bin/lua-language-server" },
          []) := by
  refine ⟨rfl, c2_resolution_cached.1 c2_env_path {} _ rfl, rfl, ?_⟩
  exact c2_resolution_cached.2 c2_env_download {} _ _ _ rfl

/-- C9: the live workspace-configuration library list is the SDK CoreLibs
path followed by the type-definitions path, in that order; without a
detected SDK the list is just the type-definitions path (the request shape
still succeeds); a type-definition resolution failure propagates as the
request's error. -/
theorem c9_workspace_library :
    (∃ settings : WorkspaceSettings,
        (language_server_workspace_configuration "playdate-lua-language-server" c9_env
          { cached_luacats_path := some "/cache/typedefs" }).1 = Except.ok (some settings)
          ∧ settings.library = ["/sdk/CoreLibs", "/cache/typedefs"])
      ∧ (∀ luacats_path, build_library_paths none luacats_path = [luacats_path])
      ∧ (∀ (env : WsEnv) (st : ExtensionState),
        st.cached_luacats_path = none → env.which_pdc = none →
        (language_server_workspace_configuration "playdate-lua-language-server" env st).1
          = Except.error "pdc command not found in PATH") := by
  refine ⟨⟨{ runtime_version := "Lua 5.4"
             diagnostics_globals := ["playdate", "import"]
             diagnostics_disable := ["duplicate-set-field"]
             library := ["/sdk/CoreLibs", "/cache/typedefs"]
             check_third_party := false
             completion_call_snippet := "Replace" }, rfl, rfl⟩, fun _ => rfl, ?_⟩
  intro env st h1 h2
  unfold language_server_workspace_configuration playdate_luacats_path
  rw [h1, h2]
  rfl

/-- C9 witness: with no cached type definitions and no pdc executable, the
workspace-configuration request fails with the pdc-not-found error. -/
theorem c9_workspace_library_witness :
    ({} : ExtensionState).cached_luacats_path = none
      ∧ c9_env_nopdc.which_pdc = none
      ∧ (language_server_workspace_configuration "playdate-lua-language-server" c9_env_nopdc
          {}).1 = Except.error "pdc command not found in PATH" :=
  ⟨rfl, rfl, c9_workspace_library.2.2 c9_env_nopdc {} rfl rfl⟩

theorem get_simulator_path_ok (os : Os) (env_vars : List (String × String)) :
    ∃ sim, get_simulator_path os env_vars = Except.ok sim := by
  obtain ⟨q, hq, -⟩ := detect_sdk_path_ok os env_vars
  unfold get_simulator_path
  rw [hq]
  cases os <;> exact ⟨_, rfl⟩

theorem get_dap_binary_attach_ok (os : Os) (env_vars : List (String × String)) (root : String)
    (g s k : Option String) (tcp : Option TcpArgumentsIn) :
    ∃ cfg : PlaydateDebugConfig,
      get_dap_binary "Playdate" ⟨⟨some "attach", g, s, k⟩, tcp⟩ os env_vars root
        = Except.ok
          { command := none, arguments := [], envs := [], cwd := none,
            connection_host := (resolve_connection tcp).1,
            connection_port := (resolve_connection tcp).2.1,
            connection_timeout := (resolve_connection tcp).2.2,
            configuration := cfg, request := RequestKind.attach } := by
  cases k with
  | some p => exact ⟨_, rfl⟩
  | none =>
    obtain ⟨q, hq, -⟩ := detect_sdk_path_ok os env_vars
    unfold get_dap_binary
    rw [hq]
    exact ⟨_, rfl⟩

/-- C6: in get_dap_binary, with no TCP override the resolved connection
parameters are host 0x7f000001 (127.0.0.1), port 55934, and timeout 5000 ms;
with an override each of host, port, and timeout independently takes the
override value when present and the corresponding default otherwise. -/
theorem c6_connection_parameters :
    (∀ (os : Os) (env_vars : List (String × String)) (root : String) (g s k : Option String),
        ∃ b, get_dap_binary "Playdate" ⟨⟨some "attach", g, s, k⟩, none⟩ os env_vars root
            = Except.ok b
          ∧ b.connection_host = 0x7f000001 ∧ b.connection_port = 55934
          ∧ b.connection_timeout = 5000)
      ∧ (∀ (os : Os) (env_vars : List (String × String)) (root : String) (g s k : Option String)
          (hostOv portOv timeoutOv : Option Nat),
        ∃ b, get_dap_binary "Playdate"
            ⟨⟨some "attach", g, s, k⟩, some ⟨hostOv, portOv, timeoutOv⟩⟩ os env_vars root
            = Except.ok b
          ∧ b.connection_host = hostOv.getD 0x7f000001
          ∧ b.connection_port = portOv.getD 55934
          ∧ b.connection_timeout = timeoutOv.getD 5000) := by
  constructor
  · intro os env_vars root g s k
    obtain ⟨cfg, hcfg⟩ := get_dap_binary_attach_ok os env_vars root g s k none
    exact ⟨_, hcfg, rfl, rfl, rfl⟩
  · intro os env_vars root g s k hostOv portOv timeoutOv
    obtain ⟨cfg, hcfg⟩ :=
      get_dap_binary_attach_ok os env_vars root g s k (some ⟨hostOv, portOv, timeoutOv⟩)
    exact ⟨_, hcfg, rfl, rfl, rfl⟩

/-- C5: the configuration {"request":"launch"} with worktree root /proj and
no gamePath, sourcePath, or sdkPath resolves to gamePath
/proj/builds/Game.pdx, sourcePath /proj/source, and a non-empty
auto-detected sdkPath. -/
theorem c5_launch_scenario :
    ∀ (os : Os) (env_vars : List (String × String)),
      ∃ (b : DebugAdapterBinary) (sdk : String),
        get_dap_binary "Playdate" ⟨⟨some "launch", none, none, none⟩, none⟩ os env_vars "/proj"
            = Except.ok b
          ∧ b.configuration.game_path = some "/proj/builds/Game.pdx"
          ∧ b.configuration.source_path = some "/proj/source"
          ∧ b.configuration.sdk_path = some sdk
          ∧ sdk ≠ "" := by
  intro os env_vars
  obtain ⟨q, hq, hne⟩ := detect_sdk_path_ok os env_vars
  obtain ⟨sim, hsim⟩ := get_simulator_path_ok os env_vars
  refine ⟨{ command := some sim
            arguments := ["/proj/builds/Game.pdx"]
            envs := []
            cwd := none
            connection_host := 0x7f000001
            connection_port := 55934
            connection_timeout := 5000
            configuration := { request := "launch"
                               game_path := some "/proj/builds/Game.pdx"
                               source_path := some "/proj/source"
                               sdk_path := some q }
            request := RequestKind.launch }, q, ?_, rfl, rfl, rfl, hne⟩
  unfold get_dap_binary
  rw [hq, hsim]
  rfl

theorem replaceFuel_congr (pat repl : List Char) (hpat : pat ≠ []) :
    ∀ (fuel fuel' : Nat) (s : List Char), s.length ≤ fuel → s.length ≤ fuel' →
      replaceFuel pat repl fuel s = replaceFuel pat repl fuel' s := by
  intro fuel
  induction fuel using Nat.strong_induction_on with
  | _ fuel ih =>
    intro fuel' s hf hf'
    cases s with
    | nil => cases fuel <;> cases fuel' <;> rfl
    | cons c rest =>
      cases fuel with
      | zero => simp at hf
      | succ f =>
        cases fuel' with
        | zero => simp at hf'
        | succ f' =>
          have hplen : 1 ≤ pat.length := by
            cases pat with
            | nil => exact absurd rfl hpat
            | cons p ps => simp
          have hf1 : rest.length ≤ f := by
            simp only [List.length_cons] at hf
            omega
          have hf1' : rest.length ≤ f' := by
            simp only [List.length_cons] at hf'
            omega
          simp only [replaceFuel]
          by_cases hpre : pat <+: (c :: rest)
          · rw [if_pos hpre, if_pos hpre]
            have hd : ((c :: rest).drop pat.length).length ≤ rest.length := by
              simp only [List.length_drop, List.length_cons]
              omega
            exact congrArg (repl ++ ·)
              (ih f (Nat.lt_succ_self f) f' _ (le_trans hd hf1) (le_trans hd hf1'))
          · rw [if_neg hpre, if_neg hpre]
            exact congrArg (c :: ·) (ih f (Nat.lt_succ_self f) f' rest hf1 hf1')

theorem listReplace_cons_neg (pat repl : List Char) (c : Char) (rest : List Char)
    (h : ¬ pat <+: (c :: rest)) :
    listReplace pat repl (c :: rest) = c :: listReplace pat repl rest := by
  simp only [listReplace, List.length_cons, replaceFuel, if_neg h]

theorem listReplace_head_match (pat repl r : List Char) (hpat : pat ≠ []) :
    listReplace pat repl (pat ++ r) = repl ++ listReplace pat repl r := by
  cases pat with
  | nil => exact absurd rfl hpat
  | cons p ps =>
    rw [List.cons_append]
    have hpre : (p :: ps) <+: (p :: (ps ++ r)) := by
      rw [← List.cons_append]
      exact List.prefix_append _ _
    simp only [listReplace, List.length_cons, replaceFuel, if_pos hpre]
    have hdrop : List.drop (ps.length + 1) (p :: (ps ++ r)) = r := by
      rw [List.drop_succ_cons]
      exact List.drop_left ps r
    rw [hdrop]
    exact congrArg (repl ++ ·)
      (replaceFuel_congr _ _ (by simp) _ _ _ (by simp) le_rfl)

theorem listReplace_no_occurrence (pat repl : List Char) :
    ∀ s : List Char, ¬ pat <:+: s → listReplace pat repl s = s := by
  intro s
  induction s with
  | nil => intro _; rfl
  | cons c rest ih =>
    intro h
    have hpre : ¬ pat <+: (c :: rest) :=
      fun hp => h (List.infix_cons_iff.mpr (Or.inl hp))
    have hrest : ¬ pat <:+: rest :=
      fun hr => h (List.infix_cons_iff.mpr (Or.inr hr))
    rw [listReplace_cons_neg _ _ _ _ hpre, ih hrest]

theorem listReplace_scan (q : Char) (qs repl : List Char) (hq : q ∉ qs) :
    ∀ (pre r : List Char), ¬ (q :: qs) <:+: pre →
      listReplace (q :: qs) repl (pre ++ (q :: qs) ++ r)
        = pre ++ repl ++ listReplace (q :: qs) repl r := by
  intro pre
  induction pre with
  | nil =>
    intro r _
    simp only [List.nil_append]
    exact listReplace_head_match _ _ _ (by simp)
  | cons c pre' ih =>
    intro r hnin
    have hnin' : ¬ (q :: qs) <:+: pre' :=
      fun hi => hnin (List.infix_cons_iff.mpr (Or.inr hi))
    have hpre : ¬ (q :: qs) <+: (c :: (pre' ++ (q :: qs) ++ r)) := by
      intro hp
      rw [List.cons_prefix_cons] at hp
      obtain ⟨hqc, hqs⟩ := hp
      rw [List.append_assoc] at hqs
      have htake := List.prefix_iff_eq_take.mp hqs
      rw [List.take_append_eq_append_take] at htake
      by_cases hlen : qs.length ≤ pre'.length
      · have h0 : qs.length - pre'.length = 0 := Nat.sub_eq_zero_of_le hlen
        rw [h0, List.take_zero, List.append_nil] at htake
        have hqpre : qs <+: pre' := htake ▸ List.take_prefix _ _
        obtain ⟨t, ht⟩ := hqpre
        refine hnin ⟨[], t, ?_⟩
        rw [List.nil_append, ← ht, hqc, List.cons_append]
      · push_neg at hlen
        have hp' : pre'.take qs.length = pre' := List.take_of_length_le (le_of_lt hlen)
        have hk : qs.length - pre'.length = (qs.length - pre'.length - 1) + 1 := by omega
        rw [hp', hk, List.cons_append, List.take_succ_cons] at htake
        have hmem : q ∈ qs := by
          rw [htake]
          exact List.mem_append_right _ (List.mem_cons_self _ _)
        exact hq hmem
    rw [List.cons_append, List.cons_append]
    rw [listReplace_cons_neg _ _ _ _ hpre]
    rw [ih r hnin']
    simp [List.cons_append, List.append_assoc]

theorem listReplace_intercalateL (q : Char) (qs repl : List Char) (hq : q ∉ qs) :
    ∀ parts : List (List Char), parts ≠ [] →
      (∀ part ∈ parts, ¬ (q :: qs) <:+: part) →
      listReplace (q :: qs) repl (intercalateL (q :: qs) parts) = intercalateL repl parts := by
  intro parts
  induction parts with
  | nil => intro h _; exact absurd rfl h
  | cons p parts' ih =>
    intro _ hparts
    cases parts' with
    | nil =>
      simp only [intercalateL]
      exact listReplace_no_occurrence _ _ p (hparts p (by simp))
    | cons p2 ps =>
      simp only [intercalateL]
      rw [listReplace_scan q qs repl hq p _ (hparts p (by simp))]
      rw [ih (by simp) (fun part hp => hparts part (by simp [hp]))]

theorem joinWith_data (sep : String) :
    ∀ parts : List String,
      (joinWith sep parts).data = intercalateL sep.data (parts.map String.data) := by
  intro parts
  induction parts with
  | nil => rfl
  | cons p parts' ih =>
    cases parts' with
    | nil => rfl
    | cons p2 ps =>
      simp only [joinWith, intercalateL, List.map_cons, String.data_append]
      simp only [List.map_cons] at ih
      rw [ih]

/-- C7: worktree-root substitution on path strings is literal substring
replacement of the token $ZED_WORKTREE_ROOT: a path containing no occurrence
of the token is returned unchanged, and in a path assembled as token-free
segments separated by one or more occurrences of the token, every occurrence
is replaced by the worktree root path. -/
theorem c7_placeholder_substitution :
    (∀ (path root : String), ¬ ("$ZED_WORKTREE_ROOT".data <:+: path.data) →
        substitute_worktree_root path root = path)
      ∧ (∀ (root : String) (parts : List String), parts ≠ [] →
        (∀ part ∈ parts, ¬ ("$ZED_WORKTREE_ROOT".data <:+: part.data)) →
        substitute_worktree_root (joinWith "$ZED_WORKTREE_ROOT" parts) root
          = joinWith root parts) := by
  constructor
  · intro path root h
    unfold substitute_worktree_root rust_replace
    exact String.ext (listReplace_no_occurrence _ _ _ h)
  · intro root parts hne hparts
    unfold substitute_worktree_root rust_replace
    apply String.ext
    show listReplace "$ZED_WORKTREE_ROOT".data root.data
        (joinWith "$ZED_WORKTREE_ROOT" parts).data = (joinWith root parts).data
    rw [joinWith_data, joinWith_data]
    refine listReplace_intercalateL '$' "ZED_WORKTREE_ROOT".data root.data (by decide)
      (parts.map String.data) (by simpa using hne) ?_
    intro part hp
    obtain ⟨p0, hp0, rfl⟩ := List.mem_map.mp hp
    exact hparts p0 hp0

/-- C7 witness: a token-free path is unchanged, and a two-segment path with
one token occurrence has it replaced by the root. -/
theorem c7_placeholder_substitution_witness :
    (¬ ("$ZED_WORKTREE_ROOT".data <:+: "/abs/game.pdx".data)
        ∧ substitute_worktree_root "/abs/game.pdx" "/proj" = "/abs/game.pdx")
      ∧ ((["src", "out"] : List String) ≠ []
        ∧ substitute_worktree_root (joinWith "$ZED_WORKTREE_ROOT" ["src", "out"]) "/proj"
          = joinWith "/proj" ["src", "out"]) := by
  constructor
  · exact ⟨by decide, c7_placeholder_substitution.1 "/abs/game.pdx" "/proj" (by decide)⟩
  · exact ⟨by decide, c7_placeholder_substitution.2 "/proj" ["src", "out"] (by decide) (by decide)⟩
